import Mathlib

/-!
Verification of the dispatch-and-bridge subsystem of `expressjs_mcp`.

The definitions below are a shallow embedding of:
* `InMemoryDispatcher.dispatch` (src/inMemoryDispatcher.ts) — the synthetic
  exchange engine: synthetic response object with `setHeader` / `writeHead` /
  `write` / `end`, the streaming classifier, the timeout timer, and the final
  `next` continuation;
* `McpServer.mount` (src/mcpServer.ts) — the HTTP-style gateway `/invoke`
  route, both the streaming relay branch and the buffered branch;
* the stdio bridge script (`mcp-bridge` CommonJS module) — line-framed
  JSON-RPC handling and the stdio streaming relay
  `invokeToolWithStdioStreaming`;
* `SchemaResolver.toolName` / `safeName` (src/schemaResolver.ts) — tool
  identifier derivation used by the gateway route lookup.

The handler chain is represented by the sequence of calls it performs against
the synthetic response object (`HEvent` traces); the engine state transition
for each call is transcribed from the source.
-/

namespace ExpressMcp

/-- Model of a JavaScript JSON value as far as the claims need it (the
repository's payloads in the verified scenarios are null / booleans / integer
numbers / strings; `undefined` is modelled separately as `Option.none` where
it can occur). -/
inductive JsVal where
  | null
  | bool (b : Bool)
  | num (n : Int)
  | str (s : String)
deriving DecidableEq, Repr

/-- Escaping performed by the `JSON.stringify` builtin on string contents:
quote and backslash get a leading backslash (the verified scenarios use no
control characters). -/
def jsEscape (s : String) : String :=
  String.mk (s.toList.foldr
    (fun c acc => if c = '"' ∨ c = '\\' then '\\' :: c :: acc else c :: acc) [])

/-- Model of the `JSON.stringify` builtin on the modelled value fragment. -/
def jsonStringify : JsVal → String
  | .null => "null"
  | .bool true => "true"
  | .bool false => "false"
  | .num n => toString n
  | .str s => "\"" ++ jsEscape s ++ "\""

/-- Model of JavaScript template-literal interpolation of a value
(as in the bridge's progress token template). -/
def jsDisplay : JsVal → String
  | .null => "null"
  | .bool true => "true"
  | .bool false => "false"
  | .num n => toString n
  | .str s => s

/-- Numeric value of a list of decimal digit characters. -/
def digitsToNat (cs : List Char) : Nat :=
  cs.foldl (fun n c => 10 * n + (c.toNat - 48)) 0

/-- Model of the `JSON.parse` builtin restricted to non-negative integer
literals: on an all-digit string it returns the corresponding JSON number,
exactly as the builtin does; on every other input this model returns `none`
(parse failure). It agrees with the builtin on every concrete input at which
it is evaluated in this development; theorems that depend on parsing for
arbitrary inputs are stated for an arbitrary parse function instead. -/
def jsParseIntLit (s : String) : Option JsVal :=
  let cs := s.toList
  if cs ≠ [] ∧ cs.all (fun c => c.isDigit) then some (.num (digitsToNat cs)) else none

/-! ## Headers

The synthetic response keeps headers in a JavaScript object keyed by
lowercased names (`this.headers[k.toLowerCase()] = String(v)`); property
assignment updates an existing key in place and appends a new key. -/

/-- ASCII lowercasing of one character, as `toLowerCase` acts on the ASCII
header names used throughout the source. -/
def lowerChar (c : Char) : Char :=
  if 'A' ≤ c ∧ c ≤ 'Z' then Char.ofNat (c.toNat + 32) else c

/-- Model of `k.toLowerCase()` on ASCII header names. -/
def lowerAscii (s : String) : String :=
  String.mk (s.toList.map lowerChar)

/-- JavaScript object property assignment on a header map. -/
def setH (hs : List (String × String)) (k v : String) : List (String × String) :=
  if hs.any (fun p => p.1 = k) then
    hs.map (fun p => if p.1 = k then (k, v) else p)
  else
    hs ++ [(k, v)]

/-- Header lookup (`this.headers[k]`), yielding `none` for an absent key
(JavaScript `undefined`). -/
def getH (hs : List (String × String)) (k : String) : Option String :=
  (hs.find? (fun p => p.1 = k)).map (·.2)

/-- The streaming classifier from `InMemoryDispatcher.dispatch` — the
`isStreamingContent` disjunction evaluated inside `res.write` and `res.end`:
the caller-requested flag, the event-stream / plain-text / octet-stream /
NDJSON / JSON-lines content types, chunked transfer encoding, websocket
upgrade, or the custom streaming indicator headers. -/
def isStreamingContent (streamingOpt : Bool) (hs : List (String × String)) : Bool :=
  streamingOpt
    || getH hs "content-type" == some "text/event-stream"
    || getH hs "content-type" == some "text/plain"
    || getH hs "content-type" == some "application/octet-stream"
    || getH hs "transfer-encoding" == some "chunked"
    || getH hs "upgrade" == some "websocket"
    || getH hs "content-type" == some "application/x-ndjson"
    || getH hs "content-type" == some "application/jsonlines"
    || getH hs "x-streaming" == some "true"
    || getH hs "x-content-stream" == some "true"

/-! ## Dispatch outcome and engine state -/

/-- Settlement of the promise returned by `InMemoryDispatcher.dispatch`.
`resolvedBuffered` carries the concatenated body string before the JSON-parse
step (applied when the result is consumed); `resolvedStreaming` carries the
chunks written to the `PassThrough` stream in write order; `resolvedEmpty` is
the resolution from the final `next` continuation when no response was sent
(`body: undefined, isStreaming: false`). -/
inductive Outcome where
  | resolvedBuffered (status : Nat) (headers : List (String × String)) (bodyStr : String)
  | resolvedStreaming (status : Nat) (headers : List (String × String)) (chunks : List String)
  | resolvedEmpty (status : Nat) (headers : List (String × String))
  | rejectedTimeout (ms : Nat)
  | rejectedErr (message : String)
deriving DecidableEq, Repr

/-- The `isStreaming` field of the resolved dispatch result. -/
def Outcome.isStreamingFlag : Outcome → Bool
  | .resolvedStreaming _ _ _ => true
  | _ => false

/-- State of one synthetic exchange inside `dispatch`: the response object's
fields (`statusCode`, `headers`, `bodyChunks`), the chunks written to the
`streamBuffer` PassThrough, the `isStreamingResponse` and `hasEnded` flags,
whether `clearTimeout` has run, and the promise settlement (a JavaScript
promise settles at most once, so the first `resolve`/`reject` wins). -/
structure ResState where
  statusCode : Nat := 200
  headers : List (String × String) := []
  bodyChunks : List String := []
  streamBuffer : List String := []
  isStreamingResponse : Bool := false
  hasEnded : Bool := false
  timerCleared : Bool := false
  outcome : Option Outcome := none
deriving DecidableEq, Repr

/-- Promise settlement: only the first `resolve`/`reject` takes effect. -/
def setOutcome (s : ResState) (o : Outcome) : ResState :=
  if s.outcome.isSome then s else { s with outcome := some o }

/-- Initial exchange state (`statusCode: 200`, empty headers and buffers). -/
def initRes : ResState := {}

/-- The effective timeout: `options.timeout || 30000` (`0` is falsy). -/
def effectiveTimeout : Option Nat → Nat
  | none => 30000
  | some t => if t = 0 then 30000 else t

/-- The timeout rejection message: `Request timeout after ${timeout}ms`. -/
def timeoutMessage (ms : Nat) : String :=
  "Request timeout after " ++ toString ms ++ "ms"

/-- One call the handler chain (or the timer) performs against the synthetic
exchange: `setHeader`, `writeHead`, `write`, `end` (with its optional final
chunk), the final `next` continuation (with an optional error value), or the
timeout timer firing. -/
inductive HEvent where
  | setHeader (k v : String)
  | writeHead (code : Nat) (hs : List (String × String))
  | write (chunk : String)
  | resEnd (chunk : Option String)
  | callNext (err : Option String)
  | timeoutFires
deriving DecidableEq, Repr

/-- State transition of the synthetic exchange for one event, transcribed
from `InMemoryDispatcher.dispatch`:
* `setHeader` lowercases the key and assigns;
* `writeHead` sets the status code and assigns each supplied header;
* `write` returns immediately when `hasEnded`, otherwise re-evaluates
  `isStreamingContent` against the current headers and routes the chunk to
  the stream buffer (latching `isStreamingResponse`) or to `bodyChunks`;
* `end` is a no-op when `hasEnded`, otherwise sets `hasEnded`, routes a
  truthy final chunk exactly like `write` (the empty string is falsy and is
  skipped), then resolves with the streaming or the buffered result according
  to `isStreamingResponse`;
* the `next` continuation clears the timer, rejects on an error value, and
  otherwise resolves with an empty body unless a response was already sent;
* the timer, unless cleared or the exchange has ended, sets `hasEnded` and
  rejects with the timeout error. -/
def step (streamingOpt : Bool) (timeoutOpt : Option Nat) (s : ResState) : HEvent → ResState
  | .setHeader k v => { s with headers := setH s.headers (lowerAscii k) v }
  | .writeHead code hs =>
      { s with statusCode := code,
               headers := hs.foldl (fun H p => setH H (lowerAscii p.1) p.2) s.headers }
  | .write c =>
      if s.hasEnded then s
      else if isStreamingContent streamingOpt s.headers then
        { s with isStreamingResponse := true, streamBuffer := s.streamBuffer ++ [c] }
      else
        { s with bodyChunks := s.bodyChunks ++ [c] }
  | .resEnd chunkOpt =>
      if s.hasEnded then s
      else
        let s1 := { s with hasEnded := true }
        let s2 :=
          match chunkOpt with
          | some c =>
            if c = "" then s1
            else if isStreamingContent streamingOpt s1.headers then
              { s1 with isStreamingResponse := true, streamBuffer := s1.streamBuffer ++ [c] }
            else
              { s1 with bodyChunks := s1.bodyChunks ++ [c] }
          | none => s1
        if s2.isStreamingResponse then
          setOutcome s2 (.resolvedStreaming s2.statusCode s2.headers s2.streamBuffer)
        else
          setOutcome s2 (.resolvedBuffered s2.statusCode s2.headers (String.join s2.bodyChunks))
  | .callNext errOpt =>
      let s1 := { s with timerCleared := true }
      match errOpt with
      | some e => setOutcome s1 (.rejectedErr e)
      | none =>
        if s1.hasEnded then s1
        else setOutcome { s1 with hasEnded := true } (.resolvedEmpty s1.statusCode s1.headers)
  | .timeoutFires =>
      if s.timerCleared then s
      else if s.hasEnded then s
      else setOutcome { s with hasEnded := true }
             (.rejectedTimeout (effectiveTimeout timeoutOpt))

/-- Run the exchange from a given state over a sequence of events. -/
def runFrom (streamingOpt : Bool) (timeoutOpt : Option Nat)
    (s : ResState) (evs : List HEvent) : ResState :=
  evs.foldl (step streamingOpt timeoutOpt) s

/-- Run one `dispatch` exchange from the initial state: `streamingOpt` is
`options.streaming`, `timeoutOpt` is `options.timeout`. -/
def run (streamingOpt : Bool) (timeoutOpt : Option Nat) (evs : List HEvent) : ResState :=
  runFrom streamingOpt timeoutOpt initRes evs

/-! ## HTTP-style gateway (`McpServer.mount`, `/invoke` route) -/

/-- One newline-delimited JSON line written by the gateway's streaming relay:
`{type:"chunk", data}`, `{type:"end"}`, or `{type:"error", error}`. -/
inductive GatewayLine where
  | chunkLine (data : String)
  | endLine
  | errorLine (message : String)
deriving DecidableEq, Repr

/-- Whether a relay line is a terminal marker. -/
def isTerminalLine : GatewayLine → Bool
  | .chunkLine _ => false
  | .endLine => true
  | .errorLine _ => true

/-- Events a consumer observes on the dispatcher's `PassThrough` stream
handle. Modelled from the Node stream contract the dispatcher relies on:
chunks written before `end` are delivered one `data` event per write, in
write order, followed by exactly one `end` event. -/
inductive StreamEvent where
  | dataEv (c : String)
  | endEv
deriving DecidableEq, Repr

/-- The stream handle's event sequence for a given list of written chunks. -/
def streamEvents (chunks : List String) : List StreamEvent :=
  chunks.map .dataEv ++ [.endEv]

/-- The gateway's streaming-branch listeners: each `data` event is relayed as
a `{type:"chunk", data}` line, the `end` event as the `{type:"end"}` line
followed by closing the outer response. -/
def lineOfStreamEvent : StreamEvent → GatewayLine
  | .dataEv c => .chunkLine c
  | .endEv => .endLine

/-- The reply body of a successful non-streaming `/invoke`:
`{ok: true, result, status}` (plus `streaming: true` on the degrade path);
`result := none` models a JSON-stringify-dropped `undefined` field. -/
structure GatewayReply where
  ok : Bool
  result : Option JsVal
  status : Nat
  streaming : Bool
deriving DecidableEq, Repr

/-- Response of the non-streaming `/invoke` branch: a 200 reply, the 404
not-found reply `{error}` produced before any dispatch, the catch branch's
500 `{ok:false, error}`, or no reply (the dispatch promise never settles). -/
inductive GatewayResponse where
  | reply (r : GatewayReply)
  | notFound (status : Nat) (error : String)
  | handlerError (status : Nat) (message : String)
  | noReply
deriving DecidableEq, Repr

/-- Non-streaming `/invoke` branch of `McpServer.mount`, applied to the
settlement of the dispatch promise (`parse` stands for the `JSON.parse`
builtin applied to the concatenated buffered body):
* a streaming result is degraded by concatenating all stream chunks into one
  payload and replying `{ok:true, result, status, streaming:true}`;
* a buffered result replies with the JSON-parsed body (raw string on parse
  failure);
* an empty result replies with an `undefined` result field;
* a rejection is caught and replied as a 500 `{ok:false, error}`. -/
def nonStreamingResponse (parse : String → Option JsVal) : Option Outcome → GatewayResponse
  | some (.resolvedStreaming st _ cks) =>
      .reply { ok := true, result := some (.str (String.join cks)), status := st, streaming := true }
  | some (.resolvedBuffered st _ b) =>
      .reply { ok := true, result := some ((parse b).getD (.str b)), status := st, streaming := false }
  | some (.resolvedEmpty st _) =>
      .reply { ok := true, result := none, status := st, streaming := false }
  | some (.rejectedTimeout ms) => .handlerError 500 (timeoutMessage ms)
  | some (.rejectedErr m) => .handlerError 500 m
  | none => .noReply

/-- Non-streaming gateway invocation of a handler whose interaction with the
exchange is the event trace `evs`: `dispatch` runs with
`options.streaming` unset, then the reply is rendered. -/
def gatewayInvokeBuffered (parse : String → Option JsVal) (timeoutOpt : Option Nat)
    (evs : List HEvent) : GatewayResponse :=
  nonStreamingResponse parse (run false timeoutOpt evs).outcome

/-- Response of the streaming `/invoke` branch: the relayed chunk lines, or
the catch branch's 500 error reply, or no reply (promise pending). -/
inductive StreamingHttpResult where
  | lines (ls : List GatewayLine)
  | errorJson (status : Nat) (message : String)
  | pending
deriving DecidableEq, Repr

/-- The single chunk `dispatchStream` pushes when the dispatch result was not
streaming: `typeof result.body === "string" ? result.body : JSON.stringify(result.body)`. -/
def fallbackChunk : JsVal → String
  | .str s => s
  | v => jsonStringify v

/-- Streaming `/invoke` branch of `McpServer.mount`: `dispatchStream` runs
the dispatch with `options.streaming := true`; a streaming result's chunks
are relayed line by line followed by one terminal line; a buffered result is
converted by `dispatchStream` into a one-chunk stream of its body; an empty
result's `undefined` body ends the fallback stream immediately; a rejection
is caught and replied as a 500 error. -/
def gatewayInvokeStreaming (parse : String → Option JsVal) (timeoutOpt : Option Nat)
    (evs : List HEvent) : StreamingHttpResult :=
  match (run true timeoutOpt evs).outcome with
  | some (.resolvedStreaming _ _ cks) => .lines ((streamEvents cks).map lineOfStreamEvent)
  | some (.resolvedBuffered _ _ b) =>
      .lines ((streamEvents [fallbackChunk ((parse b).getD (.str b))]).map lineOfStreamEvent)
  | some (.resolvedEmpty _ _) => .lines ((streamEvents []).map lineOfStreamEvent)
  | some (.rejectedTimeout ms) => .errorJson 500 (timeoutMessage ms)
  | some (.rejectedErr m) => .errorJson 500 m
  | none => .pending

/-! ## Tool identifiers and the `/invoke` route lookup (`SchemaResolver`) -/

/-- A route descriptor as the gateway lookup needs it. -/
structure RouteInfo where
  method : String
  path : String
deriving DecidableEq, Repr

/-- The human-readable title form: `` `${r.method} ${r.path}` ``. -/
def toolName (r : RouteInfo) : String := r.method ++ " " ++ r.path

/-- JavaScript `\s` whitespace as it can occur in method/path strings. -/
def isJsWs (c : Char) : Bool :=
  c = ' ' ∨ c = '\t' ∨ c = '\n' ∨ c = '\r' ∨ c = '\x0b' ∨ c = '\x0c'

/-- The global regex replacement `.replace(/\s+/g, "_")`: every maximal run
of whitespace becomes one underscore (`inWs` tracks whether the previous
character belonged to a run already replaced). -/
def collapseWsAux : Bool → List Char → List Char
  | _, [] => []
  | inWs, c :: cs =>
      if isJsWs c then
        if inWs then collapseWsAux true cs else '_' :: collapseWsAux true cs
      else c :: collapseWsAux false cs

/-- The global regex replacement `.replace(/\s+/g, "_")` on a whole string. -/
def collapseWs (cs : List Char) : List Char :=
  collapseWsAux false cs

/-- The identifier form: `this.toolName(r).replace(/\s+/g, "_")`. -/
def safeName (r : RouteInfo) : String :=
  String.mk (collapseWs (toolName r).toList)

/-- The `/invoke` route lookup:
`this.routes.find(r => toolName(r) === toolName || safeName(r) === toolName)`. -/
def findRoute (routes : List RouteInfo) (name : String) : Option RouteInfo :=
  routes.find? (fun r => toolName r == name || safeName r == name)

/-- The `/invoke` handler's resolution step, abstracted over what dispatching
a found route produces (`dispatchOf` stands for the entire
try-block — handler chain execution included — which runs only when the
lookup succeeds): an unknown tool name short-circuits to
`res.status(404).json({error:"Tool not found"})`. -/
def invokeRoute (routes : List RouteInfo) (name : String)
    (dispatchOf : RouteInfo → GatewayResponse) : GatewayResponse :=
  match findRoute routes name with
  | none => .notFound 404 "Tool not found"
  | some r => dispatchOf r

/-! ## Line-framed bridge (the stdio bridge script) -/

/-- The progress notification object literal written per chunk by
`invokeToolWithStdioStreaming`: it has exactly the fields
`jsonrpc`, `method: "notifications/progress"`, and
`params: {progressToken: "stream_" + requestId, value: {kind: "report",
message: data}}` — the literal contains no `id` member. -/
structure StdioNotification where
  method : String
  progressToken : String
  kind : String
  message : String
deriving DecidableEq, Repr

/-- Constructs the per-chunk notification of
`invokeToolWithStdioStreaming` (template `` `stream_${requestId}` ``). -/
def mkProgressNotification (requestIdDisplay : String) (data : String) : StdioNotification :=
  { method := "notifications/progress"
    progressToken := "stream_" ++ requestIdDisplay
    kind := "report"
    message := data }

/-- The resolution value of `invokeToolWithStdioStreaming`:
`{ok: true, result: chunks.join(''), streaming: true, totalChunks}`. -/
structure StreamInvokeResult where
  ok : Bool
  result : String
  totalChunks : Nat
deriving DecidableEq, Repr

/-- The relay loop of `invokeToolWithStdioStreaming` over the complete
gateway lines it receives: a `chunk` line writes one progress notification
and records the data; an `end` line resolves with the concatenated result and
the chunk count (later lines are unreachable — the function returns); an
`error` line rejects; end of the HTTP response without a terminal line
resolves with whatever was collected. Returns the notifications written, in
order, and the settlement. -/
def relayLoop (requestIdDisplay : String) (acc : List String) :
    List GatewayLine → List StdioNotification × Except String StreamInvokeResult
  | [] => ([], .ok { ok := true, result := String.join acc, totalChunks := acc.length })
  | .chunkLine d :: rest =>
      let r := relayLoop requestIdDisplay (acc ++ [d]) rest
      (mkProgressNotification requestIdDisplay d :: r.1, r.2)
  | .endLine :: _ =>
      ([], .ok { ok := true, result := String.join acc, totalChunks := acc.length })
  | .errorLine m :: _ => ([], .error m)

/-- One line the bridge writes to stdout during a streaming `tools/call`:
a progress notification (no `id` member), the final `{id, result}` reply
line whose text is `[STREAMING RESPONSE - n chunks]\n` plus the concatenated
result, or the crash of the stdin handler's catch block (see
`processLine`). -/
inductive StdioLine where
  | notif (n : StdioNotification)
  | finalReply (id : JsVal) (text : String)
  | crash (message : String)
deriving DecidableEq, Repr

/-- The `id` member of the serialized stdout line: progress notifications
are object literals without an `id` field. -/
def stdioLineId : StdioLine → Option JsVal
  | .notif _ => none
  | .finalReply i _ => some i
  | .crash _ => none

/-- The progress tokens carried by the notification lines, in write order. -/
def notifTokens (ls : List StdioLine) : List String :=
  ls.filterMap fun l =>
    match l with
    | .notif n => some n.progressToken
    | _ => none

/-- The text rendered into the final `tools/call` reply for a streaming
result: `` `[STREAMING RESPONSE - ${totalChunks} chunks]\n${result}` ``. -/
def renderStreamText (r : StreamInvokeResult) : String :=
  "[STREAMING RESPONSE - " ++ toString r.totalChunks ++ " chunks]\n" ++ r.result

/-- Everything the bridge writes to stdout for one streaming `tools/call`
request with id `id`, given the gateway lines received: the notifications in
arrival order, then the final reply line. A rejection propagates into the
stdin handler's catch block, which itself crashes (see `processLine`). -/
def bridgeStreamingOutput (id : JsVal) (lines : List GatewayLine) : List StdioLine :=
  let r := relayLoop (jsDisplay id) [] lines
  (r.1.map .notif) ++
    [match r.2 with
     | .ok res => .finalReply id (renderStreamText res)
     | .error _ => .crash "ReferenceError: request is not defined"]

/-- A decoded JSON-RPC envelope as far as the stdin handler reads it. -/
structure Envelope where
  id : Option JsVal
  method : String
deriving DecidableEq, Repr

/-- Outcome of processing one complete stdin line: either a reply line keyed
to the request id is written (`ok` distinguishes a result reply from an error
reply), or the handler itself throws. -/
inductive LineOutcome where
  | replyLine (id : Option JsVal) (ok : Bool)
  | sessionCrash (message : String)
deriving DecidableEq, Repr

/-- Per-line processing of the bridge's stdin handler. `parseResult` is the
outcome of the `JSON.parse` builtin on the line (`none` models a parse
throw); `handle` is `server.handleRequest`. On success a `{jsonrpc, id,
result}` line is written. On ANY throw — a malformed line or a failed
request — control reaches the catch block, which builds its error reply from
`request?.id`; but `request` is a `const` declared inside the `try` block and
is not in scope in the catch, so evaluating the identifier itself throws
`ReferenceError: request is not defined` out of the async data handler: no
error reply line is written. -/
def processLine (parseResult : Option Envelope)
    (handle : Envelope → Except String JsVal) : LineOutcome :=
  match parseResult with
  | none => .sessionCrash "ReferenceError: request is not defined"
  | some req =>
    match handle req with
    | .ok _ => .replyLine req.id true
    | .error _ => .sessionCrash "ReferenceError: request is not defined"

/-! ## Two concurrent invocations (isolation)

Each call to `dispatch` allocates its request object, response object,
`PassThrough` buffer and flags inside its own promise executor; an
interleaved execution of two invocations is a product of two disjoint
exchange states, each stepped only by its own invocation's events. -/

/-- Which of the two concurrent invocations an event belongs to. -/
inductive Side where
  | A
  | B
deriving DecidableEq, BEq, Repr

/-- One step of the interleaved two-invocation system: the event acts on the
exchange state of its own invocation. -/
def stepPair (optA : Bool) (tA : Option Nat) (optB : Bool) (tB : Option Nat)
    (p : ResState × ResState) (ev : Side × HEvent) : ResState × ResState :=
  match ev.1 with
  | .A => (step optA tA p.1 ev.2, p.2)
  | .B => (p.1, step optB tB p.2 ev.2)

/-- Interleaved execution of two invocations from their initial states. -/
def runPair (optA : Bool) (tA : Option Nat) (optB : Bool) (tB : Option Nat)
    (evs : List (Side × HEvent)) : ResState × ResState :=
  evs.foldl (stepPair optA tA optB tB) (initRes, initRes)

/-- Whether two side tags coincide. -/
def sideIs : Side → Side → Bool
  | .A, .A => true
  | .B, .B => true
  | _, _ => false

/-- The events of one invocation within an interleaving, in order. -/
def projSide (sd : Side) (evs : List (Side × HEvent)) : List HEvent :=
  (evs.filter (fun e => sideIs e.1 sd)).map (·.2)

/-- The exchange interaction of an echo handler: it writes the JSON
serialization of its own invocation's arguments and ends the response. -/
def echoTrace (args : JsVal) : List HEvent :=
  [.write (jsonStringify args), .resEnd none]

/-! ## Accessors used to state the claims -/

/-- Events that only touch headers or the status code (`setHeader` /
`writeHead`), never the body, the stream, or the exchange lifecycle. -/
def headerOnly : HEvent → Bool
  | .setHeader _ _ => true
  | .writeHead _ _ => true
  | _ => false

/-- The relayed line sequence of a streaming gateway response (empty for the
error and pending cases). -/
def linesOf : StreamingHttpResult → List GatewayLine
  | .lines ls => ls
  | _ => []

/-- The `result` field observed by a non-streaming gateway caller. -/
def replyResult : GatewayResponse → Option JsVal
  | .reply r => r.result
  | _ => none

/-- The data of a `{type:"chunk"}` relay line. -/
def chunkData : GatewayLine → Option String
  | .chunkLine d => some d
  | _ => none

/-! ## Helper lemmas about the exchange engine -/

theorem runFrom_append (opt : Bool) (t : Option Nat) (s : ResState) (l1 l2 : List HEvent) :
    runFrom opt t s (l1 ++ l2) = runFrom opt t (runFrom opt t s l1) l2 :=
  List.foldl_append _ _ _ _

theorem runFrom_single (opt : Bool) (t : Option Nat) (s : ResState) (e : HEvent) :
    runFrom opt t s [e] = step opt t s e := rfl

theorem run_append (opt : Bool) (t : Option Nat) (l1 l2 : List HEvent) :
    run opt t (l1 ++ l2) = runFrom opt t (run opt t l1) l2 :=
  runFrom_append opt t initRes l1 l2

/-- A settled promise stays settled with the same value: no later event
overwrites the first `resolve`/`reject`. -/
theorem step_outcome_latched (opt : Bool) (t : Option Nat) (s : ResState) (o : Outcome)
    (e : HEvent) (h : s.outcome = some o) : (step opt t s e).outcome = some o := by
  cases e <;> simp only [step, setOutcome] <;>
    repeat' first
      | rfl
      | exact h
      | split
      | simp_all

theorem runFrom_outcome_latched (opt : Bool) (t : Option Nat) (o : Outcome)
    (evs : List HEvent) :
    ∀ s : ResState, s.outcome = some o → (runFrom opt t s evs).outcome = some o := by
  induction evs with
  | nil => intro s h; exact h
  | cons e evs ih =>
      intro s h
      exact ih _ (step_outcome_latched opt t s o e h)

/-- The `isStreamingResponse` flag only ever latches: no event resets it. -/
theorem step_flag_mono (opt : Bool) (t : Option Nat) (s : ResState) (e : HEvent)
    (h : s.isStreamingResponse = true) : (step opt t s e).isStreamingResponse = true := by
  cases e <;> simp only [step, setOutcome] <;>
    repeat' first
      | rfl
      | exact h
      | split

theorem runFrom_flag_mono (opt : Bool) (t : Option Nat) (evs : List HEvent) :
    ∀ s : ResState, s.isStreamingResponse = true →
      (runFrom opt t s evs).isStreamingResponse = true := by
  induction evs with
  | nil => intro s h; exact h
  | cons e evs ih =>
      intro s h
      exact ih _ (step_flag_mono opt t s e h)

/-- While the exchange has neither ended nor cleared its timer, the promise
is unsettled: every settlement site sets `hasEnded` or `timerCleared`. -/
theorem step_unsettled (opt : Bool) (t : Option Nat) (s : ResState) (e : HEvent)
    (hinv : s.hasEnded = false → s.timerCleared = false → s.outcome = none) :
    (step opt t s e).hasEnded = false → (step opt t s e).timerCleared = false →
      (step opt t s e).outcome = none := by
  cases e <;> simp only [step, setOutcome] <;>
    repeat' first
      | exact hinv
      | split
      | simp_all

theorem runFrom_unsettled (opt : Bool) (t : Option Nat) (evs : List HEvent) :
    ∀ s : ResState, (s.hasEnded = false → s.timerCleared = false → s.outcome = none) →
      (runFrom opt t s evs).hasEnded = false →
      (runFrom opt t s evs).timerCleared = false →
      (runFrom opt t s evs).outcome = none := by
  induction evs with
  | nil => intro s h; exact h
  | cons e evs ih =>
      intro s h
      exact ih _ (step_unsettled opt t s e h)

theorem run_unsettled (opt : Bool) (t : Option Nat) (evs : List HEvent)
    (h1 : (run opt t evs).hasEnded = false) (h2 : (run opt t evs).timerCleared = false) :
    (run opt t evs).outcome = none :=
  runFrom_unsettled opt t evs initRes (fun _ _ => rfl) h1 h2

/-- Header-only events leave the exchange lifecycle fields untouched. -/
theorem runFrom_headerOnly (opt : Bool) (t : Option Nat) (evs : List HEvent) :
    ∀ s : ResState, evs.all headerOnly = true →
      (runFrom opt t s evs).hasEnded = s.hasEnded ∧
      (runFrom opt t s evs).timerCleared = s.timerCleared ∧
      (runFrom opt t s evs).outcome = s.outcome := by
  induction evs with
  | nil => intro s _; exact ⟨rfl, rfl, rfl⟩
  | cons e evs ih =>
      intro s h
      simp only [List.all_cons, Bool.and_eq_true] at h
      have hstep : (step opt t s e).hasEnded = s.hasEnded ∧
          (step opt t s e).timerCleared = s.timerCleared ∧
          (step opt t s e).outcome = s.outcome := by
        cases e <;> simp_all [headerOnly, step]
      obtain ⟨ha, hb, hc⟩ := ih (step opt t s e) h.2
      exact ⟨ha.trans hstep.1, hb.trans hstep.2.1, hc.trans hstep.2.2⟩

/-- Settling the promise never changes the exchange flags. -/
theorem setOutcome_hasEnded (s : ResState) (o : Outcome) :
    (setOutcome s o).hasEnded = s.hasEnded := by
  simp only [setOutcome]
  split <;> rfl

/-- Once the exchange has ended, `write` is ignored. -/
theorem step_write_ended (opt : Bool) (t : Option Nat) (s : ResState) (c : String)
    (h : s.hasEnded = true) : step opt t s (.write c) = s := by
  simp [step, h]

/-- Once the exchange has ended, a repeated `end` is a no-op. -/
theorem step_resEnd_ended (opt : Bool) (t : Option Nat) (s : ResState) (co : Option String)
    (h : s.hasEnded = true) : step opt t s (.resEnd co) = s := by
  simp [step, h]

/-- An `end` with no final chunk on a live exchange marks it ended and
resolves according to the latched classification flag. -/
theorem step_resEnd_none (opt : Bool) (t : Option Nat) (s : ResState)
    (h : s.hasEnded = false) :
    step opt t s (.resEnd none) =
      setOutcome { s with hasEnded := true }
        (if s.isStreamingResponse then
          .resolvedStreaming s.statusCode s.headers s.streamBuffer
         else .resolvedBuffered s.statusCode s.headers (String.join s.bodyChunks)) := by
  by_cases hf : s.isStreamingResponse = true <;>
    simp [step, h, hf]

/-- After any `end` call the exchange is in the ended state. -/
theorem step_resEnd_hasEnded (opt : Bool) (t : Option Nat) (s : ResState)
    (co : Option String) : (step opt t s (.resEnd co)).hasEnded = true := by
  by_cases h : s.hasEnded = true
  · rw [step_resEnd_ended opt t s co h]; exact h
  · rw [Bool.not_eq_true] at h
    simp only [step, h, Bool.false_eq_true, if_false]
    repeat' split
    all_goals rw [setOutcome_hasEnded]

/-- The final `next` continuation with no error on a live exchange clears the
timer, marks the exchange ended, and resolves with an empty body. -/
theorem step_callNext_none (opt : Bool) (t : Option Nat) (s : ResState)
    (h : s.hasEnded = false) :
    step opt t s (.callNext none) =
      setOutcome { s with timerCleared := true, hasEnded := true }
        (.resolvedEmpty s.statusCode s.headers) := by
  simp [step, h]

/-- The timer firing on a live exchange with an uncleared timer marks it
ended and rejects with the timeout error. -/
theorem step_timeout (opt : Bool) (t : Option Nat) (s : ResState)
    (h1 : s.hasEnded = false) (h2 : s.timerCleared = false) :
    step opt t s .timeoutFires =
      setOutcome { s with hasEnded := true }
        (.rejectedTimeout (effectiveTimeout t)) := by
  simp [step, h1, h2]

/-- A run of `write` calls under a non-streaming classification appends every
chunk to the buffered body, in call order. -/
theorem runFrom_writes_buffered (opt : Bool) (t : Option Nat) (cs : List String) :
    ∀ s : ResState, s.hasEnded = false → isStreamingContent opt s.headers = false →
      runFrom opt t s (cs.map .write) = { s with bodyChunks := s.bodyChunks ++ cs } := by
  induction cs with
  | nil => intro s _ _; simp [runFrom]
  | cons c cs ih =>
      intro s h1 h2
      have hstep : step opt t s (.write c) = { s with bodyChunks := s.bodyChunks ++ [c] } := by
        simp [step, h1, h2]
      simp only [List.map_cons, runFrom, List.foldl_cons]
      rw [show step opt t s (.write c) = { s with bodyChunks := s.bodyChunks ++ [c] } from hstep]
      have := ih { s with bodyChunks := s.bodyChunks ++ [c] } h1 h2
      simp only [runFrom] at this
      rw [this]
      simp

/-- A run of `write` calls under a streaming classification appends every
chunk to the stream buffer, in call order, and latches the flag as soon as a
chunk is written. -/
theorem runFrom_writes_stream (opt : Bool) (t : Option Nat) (cs : List String) :
    ∀ s : ResState, s.hasEnded = false → isStreamingContent opt s.headers = true →
      runFrom opt t s (cs.map .write) =
        { s with isStreamingResponse := s.isStreamingResponse || !cs.isEmpty,
                 streamBuffer := s.streamBuffer ++ cs } := by
  induction cs with
  | nil => intro s _ _; simp [runFrom]
  | cons c cs ih =>
      intro s h1 h2
      have hstep : step opt t s (.write c) =
          { s with isStreamingResponse := true, streamBuffer := s.streamBuffer ++ [c] } := by
        simp [step, h1, h2]
      simp only [List.map_cons, runFrom, List.foldl_cons]
      rw [hstep]
      have := ih { s with isStreamingResponse := true, streamBuffer := s.streamBuffer ++ [c] } h1 h2
      simp only [runFrom] at this
      rw [this]
      simp

/-- A run of `setHeader` calls folds the (lowercased) assignments over the
header map and changes nothing else. -/
theorem runFrom_setHeaders (opt : Bool) (t : Option Nat) (hdrs : List (String × String)) :
    ∀ s : ResState,
      runFrom opt t s (hdrs.map (fun p => .setHeader p.1 p.2)) =
        { s with headers := hdrs.foldl (fun H p => setH H (lowerAscii p.1) p.2) s.headers } := by
  induction hdrs with
  | nil => intro s; simp [runFrom]
  | cons p hdrs ih =>
      intro s
      simp only [List.map_cons, runFrom, List.foldl_cons, step]
      have := ih { s with headers := setH s.headers (lowerAscii p.1) p.2 }
      simp only [runFrom] at this
      rw [this]

/-- The interleaved two-invocation system is the product of the two
single-invocation runs: each invocation's final state is determined by its
own event subsequence alone. -/
theorem runPair_proj (optA : Bool) (tA : Option Nat) (optB : Bool) (tB : Option Nat)
    (evs : List (Side × HEvent)) :
    runPair optA tA optB tB evs =
      (run optA tA (projSide .A evs), run optB tB (projSide .B evs)) := by
  suffices h : ∀ (evs : List (Side × HEvent)) (sA sB : ResState),
      evs.foldl (stepPair optA tA optB tB) (sA, sB) =
        (runFrom optA tA sA (projSide .A evs), runFrom optB tB sB (projSide .B evs)) from
    h evs initRes initRes
  intro evs
  induction evs with
  | nil => intro sA sB; rfl
  | cons e evs ih =>
      intro sA sB
      obtain ⟨sd, ev⟩ := e
      cases sd <;>
        simp [stepPair, projSide, sideIs, runFrom, List.filter_cons, ih]

/-- The bridge's stdio relay loop on a well-formed chunk/end line sequence:
one progress notification per chunk, in order, and a resolution carrying the
concatenation and count of all collected chunks. -/
theorem relayLoop_chunks (idd : String) (cs : List String) :
    ∀ acc : List String,
      relayLoop idd acc (cs.map .chunkLine ++ [.endLine]) =
        (cs.map (mkProgressNotification idd),
         .ok { ok := true, result := String.join (acc ++ cs),
               totalChunks := (acc ++ cs).length }) := by
  induction cs with
  | nil => intro acc; simp [relayLoop]
  | cons c cs ih =>
      intro acc
      simp only [List.map_cons, List.cons_append, relayLoop, List.append_eq]
      rw [ih (acc ++ [c])]
      simp

/-- Composite run: header-classified-buffered writes followed by `end`
resolve with the concatenation of all written chunks. -/
theorem runFrom_writes_end_buffered (t : Option Nat) (cs : List String) :
    ∀ s : ResState, s.hasEnded = false → s.outcome = none → s.isStreamingResponse = false →
      isStreamingContent false s.headers = false →
      (runFrom false t s (cs.map .write ++ [.resEnd none])).outcome =
        some (.resolvedBuffered s.statusCode s.headers (String.join (s.bodyChunks ++ cs))) := by
  induction cs with
  | nil =>
      intro s h1 h2 h3 h4
      rw [List.map_nil, List.nil_append, runFrom_single, step_resEnd_none false t s h1]
      simp [setOutcome, h2, h3]
  | cons c cs ih =>
      intro s h1 h2 h3 h4
      have hw : step false t s (.write c) = { s with bodyChunks := s.bodyChunks ++ [c] } := by
        simp [step, h1, h4]
      have hfold : runFrom false t s ((c :: cs).map .write ++ [.resEnd none]) =
          runFrom false t (step false t s (.write c)) (cs.map .write ++ [.resEnd none]) := rfl
      rw [hfold, hw]
      have := ih { s with bodyChunks := s.bodyChunks ++ [c] } h1 h2 h3 h4
      rw [this]
      simp

/-- Composite run under a streaming classification with the flag already
latched: the writes append to the stream buffer and `end` resolves
streaming. -/
theorem runFrom_writes_end_streaming_aux (t : Option Nat) (cs : List String) :
    ∀ s : ResState, s.hasEnded = false → s.outcome = none → s.isStreamingResponse = true →
      isStreamingContent false s.headers = true →
      (runFrom false t s (cs.map .write ++ [.resEnd none])).outcome =
        some (.resolvedStreaming s.statusCode s.headers (s.streamBuffer ++ cs)) := by
  induction cs with
  | nil =>
      intro s h1 h2 h3 h4
      rw [List.map_nil, List.nil_append, runFrom_single, step_resEnd_none false t s h1]
      simp [setOutcome, h2, h3]
  | cons c cs ih =>
      intro s h1 h2 h3 h4
      have hw : step false t s (.write c) =
          { s with isStreamingResponse := true, streamBuffer := s.streamBuffer ++ [c] } := by
        simp [step, h1, h4]
      have hfold : runFrom false t s ((c :: cs).map .write ++ [.resEnd none]) =
          runFrom false t (step false t s (.write c)) (cs.map .write ++ [.resEnd none]) := rfl
      rw [hfold, hw]
      have := ih { s with isStreamingResponse := true, streamBuffer := s.streamBuffer ++ [c] }
        h1 h2 rfl h4
      rw [this]
      simp

/-- Composite run: at least one write under a streaming classification makes
`end` resolve with a streaming result carrying all written chunks. -/
theorem runFrom_writes_end_streaming (t : Option Nat) (c : String) (cs : List String) :
    ∀ s : ResState, s.hasEnded = false → s.outcome = none →
      isStreamingContent false s.headers = true →
      (runFrom false t s ((c :: cs).map .write ++ [.resEnd none])).outcome =
        some (.resolvedStreaming s.statusCode s.headers (s.streamBuffer ++ (c :: cs))) := by
  intro s h1 h2 h4
  have hw : step false t s (.write c) =
      { s with isStreamingResponse := true, streamBuffer := s.streamBuffer ++ [c] } := by
    simp [step, h1, h4]
  have hfold : runFrom false t s ((c :: cs).map .write ++ [.resEnd none]) =
      runFrom false t (step false t s (.write c)) (cs.map .write ++ [.resEnd none]) := rfl
  rw [hfold, hw]
  have := runFrom_writes_end_streaming_aux t cs
    { s with isStreamingResponse := true, streamBuffer := s.streamBuffer ++ [c] } h1 h2 rfl h4
  rw [this]
  simp

/-- The progress tokens of consecutive stdout segments concatenate. -/
theorem notifTokens_append (l1 l2 : List StdioLine) :
    notifTokens (l1 ++ l2) = notifTokens l1 ++ notifTokens l2 := by
  simp [notifTokens]

/-- The tokens of a block of notification lines, one per chunk. -/
theorem notifTokens_map_notif (g : String → StdioNotification) (cs : List String) :
    notifTokens (cs.map (fun d => StdioLine.notif (g d))) =
      cs.map (fun d => (g d).progressToken) := by
  induction cs with
  | nil => rfl
  | cons c cs ih =>
      simp only [List.map_cons, notifTokens, List.filterMap_cons] at ih ⊢
      rw [ih]

/-- Notification lines carry no `id` member. -/
theorem map_stdioLineId_notifs (g : String → StdioNotification) (cs : List String) :
    (cs.map (fun d => StdioLine.notif (g d))).map stdioLineId =
      List.replicate cs.length none := by
  induction cs with
  | nil => rfl
  | cons c cs ih => simp [stdioLineId, ih, List.replicate_succ]

/-! ## Claims -/

/-- C1 (amended): once a write has classified the exchange as streaming, the
`isStreamingResponse` flag is sticky — it stays set for the remainder of the
exchange whatever events follow, and when `end` then fires on a live,
unsettled exchange the dispatch resolves as a streaming result — but the
routing of each individual write is re-evaluated against the current headers
(see the counterexample), so later writes under non-streaming headers land in
the buffered body rather than the stream handle. -/
theorem streaming_classification_flag_sticky (opt : Bool) (t : Option Nat)
    (pre post : List HEvent) (h : (run opt t pre).isStreamingResponse = true) :
    (run opt t (pre ++ post)).isStreamingResponse = true ∧
    ((run opt t (pre ++ post)).hasEnded = false →
      (run opt t (pre ++ post)).outcome = none →
      (run opt t ((pre ++ post) ++ [.resEnd none])).outcome =
        some (.resolvedStreaming (run opt t (pre ++ post)).statusCode
          (run opt t (pre ++ post)).headers (run opt t (pre ++ post)).streamBuffer)) := by
  have hflag : (run opt t (pre ++ post)).isStreamingResponse = true := by
    rw [run_append]
    exact runFrom_flag_mono opt t post _ h
  refine ⟨hflag, fun h1 h2 => ?_⟩
  rw [run_append]
  show (step opt t (run opt t (pre ++ post)) (.resEnd none)).outcome = _
  rw [step_resEnd_none opt t _ h1, if_pos hflag]
  simp [setOutcome, h2]

/-- C1 witness: a concrete exchange classified streaming by its first write
keeps the flag and resolves streaming after later header changes. -/
theorem streaming_classification_flag_sticky_witness :
    (run false none ([.setHeader "Content-Type" "text/event-stream", .write "a"] ++
        [.setHeader "Content-Type" "application/json", .write "b"])).isStreamingResponse = true ∧
    ((run false none ([.setHeader "Content-Type" "text/event-stream", .write "a"] ++
        [.setHeader "Content-Type" "application/json", .write "b"])).hasEnded = false →
      (run false none ([.setHeader "Content-Type" "text/event-stream", .write "a"] ++
        [.setHeader "Content-Type" "application/json", .write "b"])).outcome = none →
      (run false none (([.setHeader "Content-Type" "text/event-stream", .write "a"] ++
          [.setHeader "Content-Type" "application/json", .write "b"]) ++ [.resEnd none])).outcome =
        some (.resolvedStreaming
          (run false none ([.setHeader "Content-Type" "text/event-stream", .write "a"] ++
            [.setHeader "Content-Type" "application/json", .write "b"])).statusCode
          (run false none ([.setHeader "Content-Type" "text/event-stream", .write "a"] ++
            [.setHeader "Content-Type" "application/json", .write "b"])).headers
          (run false none ([.setHeader "Content-Type" "text/event-stream", .write "a"] ++
            [.setHeader "Content-Type" "application/json", .write "b"])).streamBuffer)) :=
  streaming_classification_flag_sticky false none
    [.setHeader "Content-Type" "text/event-stream", .write "a"]
    [.setHeader "Content-Type" "application/json", .write "b"] (by decide)

/-- C1 counterexample: after the first write classifies the exchange as
streaming (event-stream content type), a header change to a non-streaming
content type makes the next write land in the buffered body, not the stream
handle — so a subsequent write is NOT treated as a stream chunk, and the
chunk is absent from the streaming result the exchange resolves with. -/
theorem classification_reevaluated_per_write_cex :
    (run false none [.setHeader "Content-Type" "text/event-stream",
        .write "a"]).isStreamingResponse = true ∧
    (run false none [.setHeader "Content-Type" "text/event-stream", .write "a",
        .setHeader "Content-Type" "application/json", .write "b",
        .resEnd none]).streamBuffer = ["a"] ∧
    (run false none [.setHeader "Content-Type" "text/event-stream", .write "a",
        .setHeader "Content-Type" "application/json", .write "b",
        .resEnd none]).bodyChunks = ["b"] ∧
    (run false none [.setHeader "Content-Type" "text/event-stream", .write "a",
        .setHeader "Content-Type" "application/json", .write "b",
        .resEnd none]).outcome =
      some (.resolvedStreaming 200 [("content-type", "application/json")] ["a"]) :=
  ⟨rfl, rfl, rfl, rfl⟩

/-- C2: a streaming gateway invocation of a handler that writes chunks
`a`, `b`, `c` and then ends relays exactly the lines
`{type:"chunk",a}`, `{type:"chunk",b}`, `{type:"chunk",c}`, `{type:"end"}`:
the chunks in write order, exactly one terminal marker, and the terminal
marker last. -/
theorem gateway_streaming_chunk_order (parse : String → Option JsVal) (t : Option Nat)
    (a b c : String) :
    gatewayInvokeStreaming parse t [.write a, .write b, .write c, .resEnd none] =
      .lines [.chunkLine a, .chunkLine b, .chunkLine c, .endLine] ∧
    (linesOf (gatewayInvokeStreaming parse t
        [.write a, .write b, .write c, .resEnd none])).filterMap chunkData = [a, b, c] ∧
    (linesOf (gatewayInvokeStreaming parse t
        [.write a, .write b, .write c, .resEnd none])).filter isTerminalLine = [.endLine] ∧
    (linesOf (gatewayInvokeStreaming parse t
        [.write a, .write b, .write c, .resEnd none])).getLast? = some .endLine :=
  ⟨rfl, rfl, rfl, rfl⟩

/-- C5: ending an exchange is terminal — `end` always leaves `hasEnded` set,
and once the exchange has ended, a further `write` and a second `end` leave
the entire exchange state unchanged (nothing buffered, nothing delivered,
nothing re-opened; the repeated `end` is a no-op, not an error). -/
theorem terminal_state_is_absorbing (opt : Bool) (t : Option Nat) (pre : List HEvent)
    (c : String) (co : Option String) :
    (run opt t (pre ++ [.resEnd co])).hasEnded = true ∧
    ((run opt t pre).hasEnded = true →
      run opt t (pre ++ [.write c]) = run opt t pre ∧
      run opt t (pre ++ [.resEnd co]) = run opt t pre) := by
  constructor
  · rw [run_append]
    exact step_resEnd_hasEnded opt t (run opt t pre) co
  · intro h
    refine ⟨?_, ?_⟩ <;> rw [run_append]
    · exact step_write_ended opt t _ c h
    · exact step_resEnd_ended opt t _ co h

/-- C5 witness: after a concrete `end`, a further write and a repeated `end`
leave the state unchanged. -/
theorem terminal_state_is_absorbing_witness :
    (run false none ([.write "x", .resEnd none] ++ [.resEnd (some "w")])).hasEnded = true ∧
    ((run false none [.write "x", .resEnd none]).hasEnded = true →
      run false none ([.write "x", .resEnd none] ++ [.write "z"]) =
        run false none [.write "x", .resEnd none] ∧
      run false none ([.write "x", .resEnd none] ++ [.resEnd (some "w")]) =
        run false none [.write "x", .resEnd none]) :=
  terminal_state_is_absorbing false none [.write "x", .resEnd none] "z" (some "w")

/-- C10: a handler chain that completes by calling the final continuation
with no error, having touched only headers and the status code (never `write`
or `end`), makes the dispatch resolve — neither reject nor stay pending —
with the response's current status code and headers, an `undefined` body,
and `isStreaming: false`; the gateway then replies `{ok:true, status}` with
no result payload. -/
theorem next_without_response_resolves_empty (opt : Bool) (t : Option Nat)
    (pre : List HEvent) (hpre : pre.all headerOnly = true) :
    (run opt t (pre ++ [.callNext none])).outcome =
      some (.resolvedEmpty (run opt t pre).statusCode (run opt t pre).headers) ∧
    (∀ parse : String → Option JsVal,
      nonStreamingResponse parse (run opt t (pre ++ [.callNext none])).outcome =
        .reply { ok := true, result := none, status := (run opt t pre).statusCode,
                 streaming := false }) ∧
    Outcome.isStreamingFlag
      (.resolvedEmpty (run opt t pre).statusCode (run opt t pre).headers) = false := by
  obtain ⟨h1, h2, h3⟩ := runFrom_headerOnly opt t pre initRes hpre
  have hend : (run opt t pre).hasEnded = false := h1
  have hnone : (run opt t pre).outcome = none := h3
  have hout : (run opt t (pre ++ [.callNext none])).outcome =
      some (.resolvedEmpty (run opt t pre).statusCode (run opt t pre).headers) := by
    rw [run_append]
    show (step opt t (run opt t pre) (.callNext none)).outcome = _
    rw [step_callNext_none opt t _ hend]
    simp [setOutcome, hnone]
  refine ⟨hout, fun parse => ?_, rfl⟩
  rw [hout]
  rfl

/-- C10 witness: a handler that sets a header, writes a status head, and
calls the continuation resolves with that status and header set and no
body. -/
theorem next_without_response_resolves_empty_witness :
    (run false none ([.setHeader "x-a" "1", .writeHead 204 []] ++ [.callNext none])).outcome =
      some (.resolvedEmpty (run false none [.setHeader "x-a" "1", .writeHead 204 []]).statusCode
        (run false none [.setHeader "x-a" "1", .writeHead 204 []]).headers) ∧
    (∀ parse : String → Option JsVal,
      nonStreamingResponse parse
          (run false none ([.setHeader "x-a" "1", .writeHead 204 []] ++ [.callNext none])).outcome =
        .reply { ok := true, result := none,
                 status := (run false none [.setHeader "x-a" "1", .writeHead 204 []]).statusCode,
                 streaming := false }) ∧
    Outcome.isStreamingFlag
      (.resolvedEmpty (run false none [.setHeader "x-a" "1", .writeHead 204 []]).statusCode
        (run false none [.setHeader "x-a" "1", .writeHead 204 []]).headers) = false :=
  next_without_response_resolves_empty false none
    [.setHeader "x-a" "1", .writeHead 204 []] (by decide)

/-- C3 (amended): a non-streaming gateway invocation of a handler that fixes
its headers up front, writes its chunks, and ends yields one reply carrying
the concatenation of all written chunks — delivered as the raw concatenated
string (with `streaming:true`) when the exchange classified streaming, and
otherwise as the `JSON.parse` of the concatenation with the raw string as
fallback (so a JSON-parseable body such as `"123"` comes back as the parsed
value, not the literal string; see the counterexample). -/
theorem gateway_buffered_concatenation (parse : String → Option JsVal) (t : Option Nat)
    (hdrs : List (String × String)) (cs : List String) :
    (isStreamingContent false (hdrs.foldl (fun H p => setH H (lowerAscii p.1) p.2) []) = false →
      gatewayInvokeBuffered parse t
          (hdrs.map (fun p => .setHeader p.1 p.2) ++ (cs.map .write ++ [.resEnd none])) =
        .reply { ok := true,
                 result := some ((parse (String.join cs)).getD (.str (String.join cs))),
                 status := 200, streaming := false }) ∧
    (isStreamingContent false (hdrs.foldl (fun H p => setH H (lowerAscii p.1) p.2) []) = true →
      cs ≠ [] →
      gatewayInvokeBuffered parse t
          (hdrs.map (fun p => .setHeader p.1 p.2) ++ (cs.map .write ++ [.resEnd none])) =
        .reply { ok := true, result := some (.str (String.join cs)),
                 status := 200, streaming := true }) := by
  have hs0 : run false t (hdrs.map (fun p => .setHeader p.1 p.2)) =
      { statusCode := 200, headers := hdrs.foldl (fun H p => setH H (lowerAscii p.1) p.2) [],
        bodyChunks := [], streamBuffer := [], isStreamingResponse := false,
        hasEnded := false, timerCleared := false, outcome := none } := by
    unfold run
    rw [runFrom_setHeaders false t hdrs initRes]
    rfl
  constructor
  · intro hcl
    simp only [gatewayInvokeBuffered, run_append, hs0]
    rw [runFrom_writes_end_buffered t cs
      { statusCode := 200, headers := hdrs.foldl (fun H p => setH H (lowerAscii p.1) p.2) [],
        bodyChunks := [], streamBuffer := [], isStreamingResponse := false,
        hasEnded := false, timerCleared := false, outcome := none } rfl rfl rfl hcl]
    simp [nonStreamingResponse]
  · intro hcl hne
    obtain ⟨c, cs', rfl⟩ := List.exists_cons_of_ne_nil hne
    simp only [gatewayInvokeBuffered, run_append, hs0]
    rw [runFrom_writes_end_streaming t c cs'
      { statusCode := 200, headers := hdrs.foldl (fun H p => setH H (lowerAscii p.1) p.2) [],
        bodyChunks := [], streamBuffer := [], isStreamingResponse := false,
        hasEnded := false, timerCleared := false, outcome := none } rfl rfl hcl]
    simp [nonStreamingResponse]

set_option maxHeartbeats 1000000 in
/-- C3 witness: the spec's `a`,`b`,`c` handler yields the single result
`"abc"` on the buffered path, and the degrade path concatenates
stream-classified chunks into one payload. -/
theorem gateway_buffered_concatenation_witness :
    gatewayInvokeBuffered jsParseIntLit none
        (([] : List (String × String)).map (fun p => HEvent.setHeader p.1 p.2) ++
          (["a", "b", "c"].map .write ++ [.resEnd none])) =
      .reply { ok := true,
               result := some ((jsParseIntLit (String.join ["a", "b", "c"])).getD
                 (.str (String.join ["a", "b", "c"]))),
               status := 200, streaming := false } ∧
    gatewayInvokeBuffered jsParseIntLit none
        ([("Content-Type", "text/event-stream")].map (fun p => HEvent.setHeader p.1 p.2) ++
          (["a", "b", "c"].map .write ++ [.resEnd none])) =
      .reply { ok := true, result := some (.str (String.join ["a", "b", "c"])),
               status := 200, streaming := true } :=
  ⟨(gateway_buffered_concatenation jsParseIntLit none [] ["a", "b", "c"]).1 (by decide),
   (gateway_buffered_concatenation jsParseIntLit none
      [("Content-Type", "text/event-stream")] ["a", "b", "c"]).2 (by decide) (by decide)⟩

/-- C3 counterexample: a handler writing `"1"`, `"2"`, `"3"` under plain
headers gets JSON-parsed — the caller receives the number `123`, not the
concatenated string `"123"`, so the reply's result is not literally the
concatenation of the written chunks. -/
theorem buffered_result_json_parsed_cex :
    replyResult (gatewayInvokeBuffered jsParseIntLit none
        [.write "1", .write "2", .write "3", .resEnd none]) = some (.num 123) ∧
    replyResult (gatewayInvokeBuffered jsParseIntLit none
        [.write "1", .write "2", .write "3", .resEnd none]) ≠
      some (.str ("1" ++ "2" ++ "3")) :=
  ⟨rfl, by decide⟩

/-- C4: if the timer fires while the exchange is live (not ended, timer not
cleared), the dispatch rejects with the timeout error carrying the configured
bound, the rejection is what the caller observes no matter what the
abandoned handler does afterwards (any following events leave the settlement
untouched), a write attempted after the timeout changes nothing at all, and
the error message states the configured bound. -/
theorem timeout_rejects_and_discards (opt : Bool) (tms : Nat) (pre post : List HEvent)
    (ht : 0 < tms)
    (h1 : (run opt (some tms) pre).hasEnded = false)
    (h2 : (run opt (some tms) pre).timerCleared = false) :
    (run opt (some tms) (pre ++ .timeoutFires :: post)).outcome =
      some (.rejectedTimeout tms) ∧
    (∀ c : String,
      run opt (some tms) ((pre ++ [.timeoutFires]) ++ [.write c]) =
        run opt (some tms) (pre ++ [.timeoutFires])) ∧
    timeoutMessage tms = "Request timeout after " ++ toString tms ++ "ms" := by
  have hnone : (run opt (some tms) pre).outcome = none :=
    run_unsettled opt (some tms) pre h1 h2
  have heff : effectiveTimeout (some tms) = tms := by
    simp [effectiveTimeout, Nat.pos_iff_ne_zero.mp ht]
  have hstep : run opt (some tms) (pre ++ [.timeoutFires]) =
      setOutcome { (run opt (some tms) pre) with hasEnded := true } (.rejectedTimeout tms) := by
    rw [run_append, runFrom_single, step_timeout opt (some tms) _ h1 h2, heff]
  have hended : (run opt (some tms) (pre ++ [.timeoutFires])).hasEnded = true := by
    rw [hstep, setOutcome_hasEnded]
  have hout : (run opt (some tms) (pre ++ [.timeoutFires])).outcome =
      some (.rejectedTimeout tms) := by
    rw [hstep]
    simp [setOutcome, hnone]
  refine ⟨?_, fun c => ?_, rfl⟩
  · have hsplit : pre ++ HEvent.timeoutFires :: post = (pre ++ [.timeoutFires]) ++ post := by
      simp
    rw [hsplit, run_append]
    exact runFrom_outcome_latched opt (some tms) _ post _ hout
  · rw [run_append, runFrom_single]
    exact step_write_ended opt (some tms) _ c hended

/-- C4 witness: with a 5ms bound and an idle handler, the timer firing
rejects with the 5ms timeout error and a later write and end have no
effect. -/
theorem timeout_rejects_and_discards_witness :
    (run false (some 5) ([] ++ .timeoutFires :: [.write "x", .resEnd none])).outcome =
      some (.rejectedTimeout 5) ∧
    (∀ c : String,
      run false (some 5) (([] ++ [.timeoutFires]) ++ [.write c]) =
        run false (some 5) ([] ++ [.timeoutFires])) ∧
    timeoutMessage 5 = "Request timeout after " ++ toString 5 ++ "ms" :=
  timeout_rejects_and_discards false 5 [] [.write "x", .resEnd none]
    (by decide) (by decide) (by decide)

/-- C6: on a stdin line that `JSON.parse` cannot decode, the bridge's catch
block itself throws (its `request?.id` reads a `const` that is scoped to the
`try` block), so the session crashes instead of writing any reply line — in
particular no error reply keyed to a `null` id is ever produced. -/
theorem malformed_line_crashes_not_replies (handle : Envelope → Except String JsVal) :
    processLine none handle = .sessionCrash "ReferenceError: request is not defined" ∧
    ∀ (i : Option JsVal) (b : Bool), processLine none handle ≠ .replyLine i b := by
  refine ⟨rfl, fun i b hcon => ?_⟩
  simp [processLine] at hcon

/-- C7 (amended): for a streaming invocation relayed by the bridge, each
chunk produces exactly one out-of-band progress notification line — carrying
no `id`, the method `notifications/progress`, and the FIXED per-invocation
progress token `stream_<requestId>` (the same token on every chunk, not a
monotonically increasing sequence; see the counterexample) — all written in
chunk order before the single final reply line, which carries the fully
concatenated result and the total chunk count. -/
theorem bridge_streaming_notifications_then_final (id : JsVal) (cs : List String) :
    bridgeStreamingOutput id (cs.map .chunkLine ++ [.endLine]) =
      cs.map (fun d => .notif (mkProgressNotification (jsDisplay id) d)) ++
        [.finalReply id ("[STREAMING RESPONSE - " ++ toString cs.length ++ " chunks]\n" ++
          String.join cs)] ∧
    notifTokens (bridgeStreamingOutput id (cs.map .chunkLine ++ [.endLine])) =
      List.replicate cs.length ("stream_" ++ jsDisplay id) ∧
    (bridgeStreamingOutput id (cs.map .chunkLine ++ [.endLine])).map stdioLineId =
      List.replicate cs.length none ++ [some id] := by
  have h := relayLoop_chunks (jsDisplay id) cs []
  rw [List.nil_append] at h
  have hout : bridgeStreamingOutput id (cs.map .chunkLine ++ [.endLine]) =
      cs.map (fun d => .notif (mkProgressNotification (jsDisplay id) d)) ++
        [.finalReply id ("[STREAMING RESPONSE - " ++ toString cs.length ++ " chunks]\n" ++
          String.join cs)] := by
    simp [bridgeStreamingOutput, h, renderStreamText]
  refine ⟨hout, ?_, ?_⟩ <;> rw [hout]
  · rw [notifTokens_append, notifTokens_map_notif]
    simp [notifTokens, mkProgressNotification]
  · rw [List.map_append, map_stdioLineId_notifs]
    rfl

/-- C7 counterexample: two chunks of one streaming invocation carry the same
progress token, so the notification labels are not pairwise distinct — there
is no monotonically increasing per-invocation sequence token. -/
theorem progress_token_not_increasing_cex :
    notifTokens (bridgeStreamingOutput (.num 1)
        [.chunkLine "a", .chunkLine "b", .endLine]) = ["stream_1", "stream_1"] ∧
    ¬ List.Pairwise (fun x y => x ≠ y)
        (notifTokens (bridgeStreamingOutput (.num 1)
          [.chunkLine "a", .chunkLine "b", .endLine])) := by
  refine ⟨rfl, fun hp => ?_⟩
  rw [show notifTokens (bridgeStreamingOutput (.num 1)
      [.chunkLine "a", .chunkLine "b", .endLine]) = ["stream_1", "stream_1"] from rfl] at hp
  rcases List.pairwise_cons.mp hp with ⟨h1, _⟩
  exact h1 "stream_1" (List.mem_singleton.mpr rfl) rfl

/-- C8: a tool name matching no registered route by either its title form or
its identifier form makes the gateway reply with the 404 not-found error
object, and what the dispatch (handler chain included) would have produced
is never consulted — the response is the same for any two dispatch
behaviors. -/
theorem unknown_tool_yields_not_found (routes : List RouteInfo) (name : String)
    (h : ∀ r ∈ routes, toolName r ≠ name ∧ safeName r ≠ name)
    (dispatchOf dispatchOf2 : RouteInfo → GatewayResponse) :
    invokeRoute routes name dispatchOf = .notFound 404 "Tool not found" ∧
    invokeRoute routes name dispatchOf = invokeRoute routes name dispatchOf2 := by
  have hfind : findRoute routes name = none := by
    rw [findRoute, List.find?_eq_none]
    intro r hr
    simp only [Bool.or_eq_true, beq_iff_eq, not_or]
    exact h r hr
  exact ⟨by simp [invokeRoute, hfind], by simp [invokeRoute, hfind]⟩

/-- C8 witness: a catalog with one `GET /x` route and the unknown name
`nope` yields the 404 reply regardless of the dispatch behavior. -/
theorem unknown_tool_yields_not_found_witness :
    invokeRoute [{ method := "GET", path := "/x" }] "nope"
        (fun _ => GatewayResponse.noReply) = .notFound 404 "Tool not found" ∧
    invokeRoute [{ method := "GET", path := "/x" }] "nope"
        (fun _ => GatewayResponse.noReply) =
      invokeRoute [{ method := "GET", path := "/x" }] "nope"
        (fun _ => GatewayResponse.handlerError 500 "boom") :=
  unknown_tool_yields_not_found [{ method := "GET", path := "/x" }] "nope"
    (by decide) (fun _ => GatewayResponse.noReply)
    (fun _ => GatewayResponse.handlerError 500 "boom")

/-- C9: in any interleaving of two echo invocations, each invocation's
dispatch resolves with the serialization of its own arguments alone — the
result of the first is the same whatever the second invocation's arguments
and scheduling, because every exchange's state is freshly constructed and
never shared. -/
theorem concurrent_echo_isolation (tA tB : Option Nat) (evs : List (Side × HEvent))
    (a b : JsVal) (hA : projSide .A evs = echoTrace a) (hB : projSide .B evs = echoTrace b) :
    (runPair false tA false tB evs).1.outcome =
      some (.resolvedBuffered 200 [] (jsonStringify a)) ∧
    (runPair false tA false tB evs).2.outcome =
      some (.resolvedBuffered 200 [] (jsonStringify b)) := by
  rw [runPair_proj, hA, hB]
  exact ⟨rfl, rfl⟩

/-- C9 witness: a concrete interleaving of two echo invocations with
different arguments resolves each with its own payload. -/
theorem concurrent_echo_isolation_witness :
    (runPair false none false none
        [(.A, .write (jsonStringify (.str "x"))), (.B, .write (jsonStringify (.num 7))),
         (.A, .resEnd none), (.B, .resEnd none)]).1.outcome =
      some (.resolvedBuffered 200 [] (jsonStringify (.str "x"))) ∧
    (runPair false none false none
        [(.A, .write (jsonStringify (.str "x"))), (.B, .write (jsonStringify (.num 7))),
         (.A, .resEnd none), (.B, .resEnd none)]).2.outcome =
      some (.resolvedBuffered 200 [] (jsonStringify (.num 7))) :=
  concurrent_echo_isolation none none
    [(.A, .write (jsonStringify (.str "x"))), (.B, .write (jsonStringify (.num 7))),
     (.A, .resEnd none), (.B, .resEnd none)]
    (.str "x") (.num 7) (by decide) (by decide)

end ExpressMcp
